import Mathlib

/-
  Verification of the ExchangeRate GUI application (src/exchangeAppGUI.py).

  The program is a thin client over the exchangerate-api.com REST API.
  We shallowly embed its three command handlers (convert_currency,
  get_exchange_rate, get_api_quota), the credential check (check_admin)
  and the rate-map presentation formatter (ExchangeRatesDialog.__init__),
  making the widget state, the issued HTTP requests and uncaught Python
  faults explicit.
-/

namespace ExchangeRate

/-- The three secrets read with `os.getenv` at process start (lines 20-22).
`os.getenv` yields `None` when the key is absent, hence `Option String`. -/
structure Config where
  API_KEY : Option String
  ADMIN : Option String
  PASSWORD : Option String
deriving DecidableEq

/-- Python `str.upper` on the ASCII range: uppercase each character.
Defined by a plain list map so that it evaluates by kernel reduction. -/
def pyUpper (s : String) : String :=
  ⟨s.data.map Char.toUpper⟩

/-- Rendering of a possibly-`None` Python value inside an f-string:
`None` prints as `"None"`, a string prints as itself. -/
def pyOptStr : Option String → String
  | none => "None"
  | some s => s

/-- The JSON body of an API response, restricted to the three keys the
program ever reads.  A key maps to `none` when it is absent from the body
(subscripting it then raises `KeyError`).  Numeric values are carried in
their Python `str`-rendered form, which is all the program uses of them. -/
structure Body where
  conversion_rates : Option (List (String × String))
  conversion_result : Option String
  requests_remaining : Option String
deriving DecidableEq

/-- The mocked API boundary: `requests.get` composed with `.json()`.
`Except.error` models a transport failure (a `requests` exception, which
the handlers do not catch). -/
def Api : Type := String → Except Unit Body

/-- The Tk entry and label widgets the handlers read and write
(the global widget state of the script). -/
structure AppState where
  source_currency_entry : String
  target_currency_entry : String
  amount_entry : String
  admin_entry : String
  admin_password_entry : String
  from_currency_entry : String
  to_currency_entry : String
  display_result : String
  quota_label : String
  exchange_rate_label : String
deriving DecidableEq

/-- Outcome of running one command handler: the widget state afterwards,
the HTTP requests issued (by URL, in order), the text shown in a freshly
opened ExchangeRatesDialog if any, and whether the handler aborted with an
uncaught Python exception (in which case `state` is the state at the point
of the fault). -/
structure HandlerResult where
  state : AppState
  requests : List String
  dialog : Option String
  faulted : Bool
deriving DecidableEq

/-- URL of `GET /v6/\x7bAPI_KEY\x7d/pair/\x7bfrom\x7d/\x7bto\x7d/\x7bamount\x7d` (line 179). -/
def pairUrl (cfg : Config) (fr t amt : String) : String :=
  "https://v6.exchangerate-api.com/v6/" ++ pyOptStr cfg.API_KEY ++ "/pair/"
    ++ fr ++ "/" ++ t ++ "/" ++ amt

/-- URL of `GET /v6/\x7bAPI_KEY\x7d/latest/\x7bbase\x7d` (lines 71-74 and 140-143). -/
def latestUrl (cfg : Config) (base : String) : String :=
  "https://v6.exchangerate-api.com/v6/" ++ pyOptStr cfg.API_KEY ++ "/latest/" ++ base

/-- URL of `GET /v6/\x7bAPI_KEY\x7d/quota` (line 104). -/
def quotaUrl (cfg : Config) : String :=
  "https://v6.exchangerate-api.com/v6/" ++ pyOptStr cfg.API_KEY ++ "/quota"

/-- `check_admin` (lines 195-206): returns `True` when both entries equal
the configured secrets, and falls off the end of the function (returning
`None`) otherwise.  `Option Bool` embeds this `True`-or-`None` behaviour;
`none` is the implicit `None`. -/
def check_admin (cfg : Config) (st : AppState) : Option Bool :=
  if some st.admin_entry = cfg.ADMIN ∧ some st.admin_password_entry = cfg.PASSWORD then
    some true
  else
    none

/-- Python truthiness of a `True`-or-`None` value, as tested by
`if not check_admin():` on line 99. -/
def truthy : Option Bool → Bool
  | none => false
  | some b => b

/-- `get_api_quota` (lines 91-113). On a failed credential check it writes
the error label and returns without any request; otherwise it calls the
quota endpoint, and a missing `requests_remaining` key (or a transport
failure) raises before the label write and the entry clears. -/
def get_api_quota (cfg : Config) (api : Api) (st : AppState) : HandlerResult :=
  if truthy (check_admin cfg st) = false then
    ⟨{ st with quota_label := "Invalid admin credentials!" }, [], none, false⟩
  else
    match api (quotaUrl cfg) with
    | .error _ => ⟨st, [quotaUrl cfg], none, true⟩
    | .ok body =>
      match body.requests_remaining with
      | none => ⟨st, [quotaUrl cfg], none, true⟩
      | some r =>
        ⟨{ st with
            quota_label := "Quota: " ++ r ++ " requests remaining",
            admin_entry := "",
            admin_password_entry := "" },
          [quotaUrl cfg], none, false⟩

/-- `convert_currency` (lines 161-191): uppercase both codes, issue the
pair request unconditionally, then display and clear; a transport failure
or a missing `conversion_result` key raises before any widget write. -/
def convert_currency (cfg : Config) (api : Api) (st : AppState) : HandlerResult :=
  let from_currency := (pyUpper st.source_currency_entry)
  let to_currency := (pyUpper st.target_currency_entry)
  let amount := st.amount_entry
  let url := pairUrl cfg from_currency to_currency amount
  match api url with
  | .error _ => ⟨st, [url], none, true⟩
  | .ok body =>
    match body.conversion_result with
    | none => ⟨st, [url], none, true⟩
    | some r =>
      ⟨{ st with
          display_result := from_currency ++ " to " ++ to_currency ++ ": " ++ r,
          source_currency_entry := "",
          target_currency_entry := "",
          amount_entry := "" },
        [url], none, false⟩

/-- The character class `[{}']` of the regex on line 79. -/
def isMapPunct (c : Char) : Bool :=
  c = Char.ofNat 123 ∨ c = Char.ofNat 125 ∨ c = Char.ofNat 39

/-- `re.sub(r"[{}']", "", s)` (line 79): delete every brace and single
quote. -/
def stripMapPunct (s : String) : String :=
  ⟨s.data.filter fun c => !(isMapPunct c)⟩

/-- `re.sub(r",", "\n", s)` (line 80): turn every comma into a newline. -/
def commaToNewline (s : String) : String :=
  ⟨s.data.map fun c => if c = Char.ofNat 44 then Char.ofNat 10 else c⟩

/-- The full rate-map formatting of ExchangeRatesDialog (lines 78-80),
applied to the Python `str` of the `conversion_rates` dict. -/
def formatRates (s : String) : String :=
  commaToNewline (stripMapPunct s)

/-- Python `str` of one dict entry whose key is a string and whose value
renders bare (a float): `\x27KEY\x27: value`. -/
def pyDictEntry (p : String × String) : String :=
  "\x27" ++ p.1 ++ "\x27: " ++ p.2

/-- The comma-space separated run of entries inside the Python `str` of a
dict, in insertion order. -/
def pyDictInner : List (String × String) → String
  | [] => ""
  | [p] => pyDictEntry p
  | p :: q :: rest => pyDictEntry p ++ ", " ++ pyDictInner (q :: rest)

/-- Python `str` of a dict from string keys to floats, in insertion
order: braces around the comma-separated entries. -/
def pyDictStr (m : List (String × String)) : String :=
  "\x7b" ++ pyDictInner m ++ "\x7d"

/-- `get_exchange_rate` (lines 117-157): abort with a prompt when the
source entry is empty; with a target, fetch the latest table and index it
at the uppercased target (a missing table or missing target key raises);
without a target, open ExchangeRatesDialog, which fetches the table and
shows it formatted. -/
def get_exchange_rate (cfg : Config) (api : Api) (st : AppState) : HandlerResult :=
  let from_currency : Option String :=
    if st.from_currency_entry = "" then none else some (pyUpper st.from_currency_entry)
  let to_currency : Option String :=
    if st.to_currency_entry = "" then none else some (pyUpper st.to_currency_entry)
  match from_currency with
  | none =>
    ⟨{ st with exchange_rate_label := "Please enter the source currency!" }, [], none, false⟩
  | some fr =>
    match to_currency with
    | some t =>
      match api (latestUrl cfg fr) with
      | .error _ => ⟨st, [latestUrl cfg fr], none, true⟩
      | .ok body =>
        match body.conversion_rates with
        | none => ⟨st, [latestUrl cfg fr], none, true⟩
        | some rates =>
          match rates.lookup t with
          | none => ⟨st, [latestUrl cfg fr], none, true⟩
          | some rate =>
            ⟨{ st with
                exchange_rate_label :=
                  "Exchange rate for " ++ fr ++ " to " ++ t ++ ": " ++ rate,
                from_currency_entry := "",
                to_currency_entry := "" },
              [latestUrl cfg fr], none, false⟩
    | none =>
      match api (latestUrl cfg fr) with
      | .error _ => ⟨st, [latestUrl cfg fr], none, true⟩
      | .ok body =>
        match body.conversion_rates with
        | none => ⟨st, [latestUrl cfg fr], none, true⟩
        | some rates =>
          ⟨st, [latestUrl cfg fr], some ((formatRates (pyDictStr rates)).trim), false⟩

/-- The value the pair-endpoint call yields for `conversion_result`:
`none` on transport failure or when the key is absent. -/
def respResult (r : Except Unit Body) : Option String :=
  match r with
  | .error _ => none
  | .ok b => b.conversion_result

/-- The value the quota-endpoint call yields for `requests_remaining`. -/
def respRemaining (r : Except Unit Body) : Option String :=
  match r with
  | .error _ => none
  | .ok b => b.requests_remaining

/-- The rate the latest-endpoint call yields for a target code: `none` on
transport failure, a missing `conversion_rates` key, or a target code
absent from the table. -/
def respRate (r : Except Unit Body) (t : String) : Option String :=
  match r with
  | .error _ => none
  | .ok b =>
    match b.conversion_rates with
    | none => none
    | some rates => rates.lookup t

/-- A character the formatter leaves in place: not a brace, not a single
quote, not a comma. -/
def cleanChar (c : Char) : Bool :=
  !(isMapPunct c) && !(c = Char.ofNat 44)

/-- A string the formatter leaves in place character for character. -/
def cleanStr (s : String) : Bool :=
  s.data.all cleanChar

/-- A rate map whose codes and rendered rates contain no brace, single
quote or comma (true of every real currency code and rate rendering). -/
def cleanMap (m : List (String × String)) : Bool :=
  m.all fun p => cleanStr p.1 && cleanStr p.2

/-- Description of the formatted output used to state the formatter claim:
one `CODE: rate` line per map entry, in the order of the map, each
line after the first carrying the space left over from the `, `
separator.  No sorting is applied. -/
def ratesLines : List (String × String) → String
  | [] => ""
  | [p] => p.1 ++ ": " ++ p.2
  | p :: q :: rest => p.1 ++ ": " ++ p.2 ++ "\n " ++ ratesLines (q :: rest)

/-- Fixture configuration for concrete witnesses. -/
def cfgW : Config := ⟨some "KEY", some "alice", some "s3cret"⟩

/-- Fixture configuration with the admin-username secret absent from the
environment. -/
def cfgNoAdmin : Config := ⟨some "KEY", none, some "s3cret"⟩

/-- Fixture widget state: filled convert form, correct admin credentials,
filled rate-lookup form. -/
def stW : AppState := ⟨"usd", "eur", "100", "alice", "s3cret", "usd", "jpy", "", "", ""⟩

/-- Fixture widget state with a wrong admin password. -/
def stWrong : AppState := ⟨"usd", "eur", "100", "alice", "wrong", "usd", "jpy", "", "", ""⟩

/-- Fixture widget state with an empty rate-lookup source entry and a
filled target entry. -/
def stEmptySrc : AppState := ⟨"usd", "eur", "100", "alice", "s3cret", "", "jpy", "", "", ""⟩

/-- Fixture API answering the three URLs the fixture state reaches, with a
transport failure everywhere else. -/
def apiW : Api := fun u =>
  if u = pairUrl cfgW "USD" "EUR" "100" then .ok ⟨none, some "92.0", none⟩
  else if u = quotaUrl cfgW then .ok ⟨none, none, some "1499"⟩
  else if u = latestUrl cfgW "USD" then
    .ok ⟨some [("USD", "1.0"), ("JPY", "147.2")], none, none⟩
  else .error ()

/-- Fixture API that answers every URL with a body holding none of the
three keys (as the real API does on a non-200 error response). -/
def apiNoKeys : Api := fun _ => .ok ⟨none, none, none⟩

/-- Fixture API with a transport failure on every URL. -/
def apiFail : Api := fun _ => .error ()

/-- Fixture widget state with every entry and label empty. -/
def stEmptyAll : AppState := ⟨"", "", "", "", "", "", "", "", "", ""⟩

/-! ### Helper lemmas -/

theorem data_stripMapPunct (s : String) :
    (stripMapPunct s).data = s.data.filter fun c => !(isMapPunct c) := rfl

theorem data_commaToNewline (s : String) :
    (commaToNewline s).data =
      s.data.map fun c => if c = Char.ofNat 44 then Char.ofNat 10 else c := rfl

theorem stripMapPunct_append (a b : String) :
    stripMapPunct (a ++ b) = stripMapPunct a ++ stripMapPunct b := by
  apply String.ext
  simp [data_stripMapPunct, String.data_append, List.filter_append]

theorem commaToNewline_append (a b : String) :
    commaToNewline (a ++ b) = commaToNewline a ++ commaToNewline b := by
  apply String.ext
  simp [data_commaToNewline, String.data_append]

theorem formatRates_append (a b : String) :
    formatRates (a ++ b) = formatRates a ++ formatRates b := by
  simp [formatRates, stripMapPunct_append, commaToNewline_append]

theorem map_id_of_mem {α : Type} (f : α → α) (l : List α) (h : ∀ a ∈ l, f a = a) :
    l.map f = l := by
  induction l with
  | nil => rfl
  | cons a t ih =>
    simp only [List.map_cons, h a (by simp)]
    rw [ih fun x hx => h x (by simp [hx])]

theorem stripMapPunct_clean (s : String) (h : cleanStr s = true) :
    stripMapPunct s = s := by
  apply String.ext
  rw [data_stripMapPunct]
  apply List.filter_eq_self.mpr
  intro a ha
  have hc := List.all_eq_true.mp h a ha
  simp only [cleanChar, Bool.and_eq_true] at hc
  exact hc.1

theorem commaToNewline_clean (s : String) (h : cleanStr s = true) :
    commaToNewline s = s := by
  apply String.ext
  rw [data_commaToNewline]
  apply map_id_of_mem
  intro a ha
  have hc := List.all_eq_true.mp h a ha
  simp only [cleanChar, Bool.and_eq_true] at hc
  have : ¬(a = Char.ofNat 44) := by
    intro he
    rw [he] at hc
    simp at hc
  simp [this]

theorem formatRates_clean (s : String) (h : cleanStr s = true) :
    formatRates s = s := by
  rw [formatRates, stripMapPunct_clean s h, commaToNewline_clean s h]

theorem formatRates_entry (p : String × String)
    (h1 : cleanStr p.1 = true) (h2 : cleanStr p.2 = true) :
    formatRates (pyDictEntry p) = p.1 ++ ": " ++ p.2 := by
  unfold pyDictEntry
  rw [formatRates_append, formatRates_append, formatRates_append,
    formatRates_clean p.1 h1, formatRates_clean p.2 h2]
  rfl

theorem formatRates_inner (m : List (String × String)) (h : cleanMap m = true) :
    formatRates (pyDictInner m) = ratesLines m := by
  induction m with
  | nil => rfl
  | cons p rest ih =>
    simp only [cleanMap, List.all_cons, Bool.and_eq_true] at h
    cases rest with
    | nil =>
      show formatRates (pyDictEntry p) = ratesLines [p]
      rw [formatRates_entry p h.1.1 h.1.2]
      rfl
    | cons q rest2 =>
      show formatRates (pyDictEntry p ++ ", " ++ pyDictInner (q :: rest2)) = _
      rw [formatRates_append, formatRates_append, formatRates_entry p h.1.1 h.1.2]
      have h2 : cleanMap (q :: rest2) = true := h.2
      rw [ih h2]
      show _ ++ "\n " ++ _ = _
      rfl

theorem convert_requests_eq (cfg : Config) (api : Api) (st : AppState) :
    (convert_currency cfg api st).requests =
      [pairUrl cfg (pyUpper st.source_currency_entry) (pyUpper st.target_currency_entry)
        st.amount_entry] := by
  unfold convert_currency
  cases h : api (pairUrl cfg (pyUpper st.source_currency_entry) (pyUpper st.target_currency_entry)
      st.amount_entry) with
  | error e => simp [h]
  | ok b => cases hb : b.conversion_result <;> simp [h, hb]

theorem get_rate_requests_eq (cfg : Config) (api : Api) (st : AppState)
    (hf : ¬(st.from_currency_entry = "")) :
    (get_exchange_rate cfg api st).requests = [latestUrl cfg (pyUpper st.from_currency_entry)] := by
  unfold get_exchange_rate
  simp only [if_neg hf]
  by_cases ht : st.to_currency_entry = ""
  · simp only [if_pos ht]
    cases h : api (latestUrl cfg (pyUpper st.from_currency_entry)) with
    | error e => simp [h]
    | ok b => cases hb : b.conversion_rates <;> simp [h, hb]
  · simp only [if_neg ht]
    cases h : api (latestUrl cfg (pyUpper st.from_currency_entry)) with
    | error e => simp [h]
    | ok b =>
      cases hb : b.conversion_rates with
      | none => simp [h, hb]
      | some rates =>
        cases hr : rates.lookup (pyUpper st.to_currency_entry) <;> simp [h, hb, hr]

theorem convert_fault_char (cfg : Config) (api : Api) (st : AppState) :
    ((convert_currency cfg api st).faulted = true ↔
      respResult (api (pairUrl cfg (pyUpper st.source_currency_entry)
        (pyUpper st.target_currency_entry) st.amount_entry)) = none) ∧
    ((convert_currency cfg api st).faulted = true → (convert_currency cfg api st).state = st) := by
  unfold convert_currency respResult
  cases h : api (pairUrl cfg (pyUpper st.source_currency_entry) (pyUpper st.target_currency_entry)
      st.amount_entry) with
  | error e => simp [h]
  | ok b => cases hb : b.conversion_result <;> simp [h, hb]

theorem rate_fault_char (cfg : Config) (api : Api) (st : AppState)
    (hf : ¬(st.from_currency_entry = "")) (ht : ¬(st.to_currency_entry = "")) :
    ((get_exchange_rate cfg api st).faulted = true ↔
      respRate (api (latestUrl cfg (pyUpper st.from_currency_entry)))
        (pyUpper st.to_currency_entry) = none) ∧
    ((get_exchange_rate cfg api st).faulted = true →
      (get_exchange_rate cfg api st).state = st) := by
  unfold get_exchange_rate respRate
  simp only [if_neg hf, if_neg ht]
  cases h : api (latestUrl cfg (pyUpper st.from_currency_entry)) with
  | error e => simp [h]
  | ok b =>
    cases hb : b.conversion_rates with
    | none => simp [h, hb]
    | some rates =>
      cases hr : rates.lookup (pyUpper st.to_currency_entry) <;> simp [h, hb, hr]

theorem quota_fault_char (cfg : Config) (api : Api) (st : AppState)
    (h : truthy (check_admin cfg st) = true) :
    ((get_api_quota cfg api st).faulted = true ↔
      respRemaining (api (quotaUrl cfg)) = none) ∧
    ((get_api_quota cfg api st).faulted = true → (get_api_quota cfg api st).state = st) := by
  unfold get_api_quota respRemaining
  simp only [h]
  cases hq : api (quotaUrl cfg) with
  | error e => simp [hq]
  | ok b => cases hb : b.requests_remaining <;> simp [hq, hb]

/-! ### The claims -/

/-- C1: `convert_currency` requests the pair endpoint with the uppercased
source code, the uppercased target code and the raw amount, and when the
response body carries a value `r` under `conversion_result` it sets the
result display to exactly `A to B: r` with `A` and `B` the uppercased
codes, without faulting. -/
theorem convert_displays_api_result (cfg : Config) (api : Api) (st : AppState)
    (b : Body) (r : String)
    (hok : api (pairUrl cfg (pyUpper st.source_currency_entry) (pyUpper st.target_currency_entry)
      st.amount_entry) = .ok b)
    (hr : b.conversion_result = some r) :
    (convert_currency cfg api st).requests =
      [pairUrl cfg (pyUpper st.source_currency_entry) (pyUpper st.target_currency_entry)
        st.amount_entry] ∧
    (convert_currency cfg api st).state.display_result =
      (pyUpper st.source_currency_entry) ++ " to " ++ (pyUpper st.target_currency_entry)
        ++ ": " ++ r ∧
    (convert_currency cfg api st).faulted = false := by
  unfold convert_currency
  simp [hok, hr]

/-- Witness for C1: source `usd`, target `eur`, amount `100` against the
fixture API displays exactly `USD to EUR: 92.0`. -/
theorem convert_displays_api_result_spot :
    (convert_currency cfgW apiW stW).state.display_result = "USD to EUR: 92.0" ∧
    (convert_currency cfgW apiW stW).requests =
      ["https://v6.exchangerate-api.com/v6/KEY/pair/USD/EUR/100"] := by
  have h := convert_displays_api_result cfgW apiW stW ⟨none, some "92.0", none⟩ "92.0"
    rfl rfl
  exact ⟨h.2.1.trans (by decide), h.1.trans (by decide)⟩

/-- C2: when the credential check fails, the quota command issues no
request and shows the invalid-credentials message; conversely the quota
endpoint is reached only when the submitted username and password equal
the configured secrets. -/
theorem quota_needs_credentials (cfg : Config) (api : Api) (st : AppState) :
    (truthy (check_admin cfg st) = false →
      (get_api_quota cfg api st).requests = [] ∧
      (get_api_quota cfg api st).state.quota_label = "Invalid admin credentials!") ∧
    ((get_api_quota cfg api st).requests ≠ [] →
      some st.admin_entry = cfg.ADMIN ∧ some st.admin_password_entry = cfg.PASSWORD) := by
  constructor
  · intro h
    unfold get_api_quota
    simp [h]
  · intro h
    by_cases hc : some st.admin_entry = cfg.ADMIN ∧ some st.admin_password_entry = cfg.PASSWORD
    · exact hc
    · exfalso
      apply h
      unfold get_api_quota
      simp [check_admin, truthy, hc]

/-- Witness for C2 at a wrong password: no request, error label shown. -/
theorem quota_needs_credentials_spot :
    (get_api_quota cfgW apiW stWrong).requests = [] ∧
    (get_api_quota cfgW apiW stWrong).state.quota_label = "Invalid admin credentials!" :=
  (quota_needs_credentials cfgW apiW stWrong).1 (by decide)

/-- C3: `check_admin` yields `True` exactly when both submitted strings
equal the configured secrets (exact string comparison), and in every other
case it falls through to Python `None`: a falsy value that is not the
explicit boolean `False`. -/
theorem check_admin_exact_equality (cfg : Config) (st : AppState) :
    (check_admin cfg st = some true ↔
      some st.admin_entry = cfg.ADMIN ∧ some st.admin_password_entry = cfg.PASSWORD) ∧
    (¬(some st.admin_entry = cfg.ADMIN ∧ some st.admin_password_entry = cfg.PASSWORD) →
      check_admin cfg st = none ∧ check_admin cfg st ≠ some false ∧
      truthy (check_admin cfg st) = false) := by
  unfold check_admin
  by_cases hc : some st.admin_entry = cfg.ADMIN ∧ some st.admin_password_entry = cfg.PASSWORD
  · simp [hc]
  · simp [hc, truthy]

/-- Witness for C3 at a one-character password deviation. -/
theorem check_admin_exact_equality_spot :
    check_admin cfgW stWrong = none ∧ check_admin cfgW stWrong ≠ some false ∧
    truthy (check_admin cfgW stWrong) = false :=
  (check_admin_exact_equality cfgW stWrong).2 (by decide)

/-- C4: on a rate map whose codes and rendered rates avoid brace, quote
and comma characters, the formatter removes every brace and single quote
from the Python rendering of the map, turns each comma separator into a
line break, and yields exactly one `CODE: rate` line per entry in the
original map order — no sorting, every pairing preserved. -/
theorem formatter_strips_and_breaks_lines (m : List (String × String))
    (h : cleanMap m = true) :
    formatRates (pyDictStr m) = ratesLines m := by
  unfold pyDictStr
  rw [formatRates_append, formatRates_append, formatRates_inner m h]
  have e1 : formatRates "\x7b" = "" := rfl
  have e2 : formatRates "\x7d" = "" := rfl
  rw [e1, e2]
  apply String.ext
  simp [String.data_append]

/-- Witness for C4 on a two-entry rate map. -/
theorem formatter_strips_and_breaks_lines_spot :
    cleanMap [("USD", "1.0"), ("JPY", "147.2")] = true ∧
    formatRates (pyDictStr [("USD", "1.0"), ("JPY", "147.2")]) = "USD: 1.0\n JPY: 147.2" := by
  have h := formatter_strips_and_breaks_lines [("USD", "1.0"), ("JPY", "147.2")] (by decide)
  exact ⟨by decide, h.trans (by decide)⟩

/-- C5: with an empty source entry the Get Rate command issues no request,
shows the configured prompt, opens no rate-table dialog and returns
without fault — whatever the target entry holds. -/
theorem get_rate_empty_source_aborts (cfg : Config) (api : Api) (st : AppState)
    (h : st.from_currency_entry = "") :
    (get_exchange_rate cfg api st).requests = [] ∧
    (get_exchange_rate cfg api st).state.exchange_rate_label =
      "Please enter the source currency!" ∧
    (get_exchange_rate cfg api st).dialog = none ∧
    (get_exchange_rate cfg api st).faulted = false := by
  unfold get_exchange_rate
  simp [h]

/-- Witness for C5: empty source, filled target, failing network. -/
theorem get_rate_empty_source_aborts_spot :
    (get_exchange_rate cfgW apiFail stEmptySrc).requests = [] ∧
    (get_exchange_rate cfgW apiFail stEmptySrc).state.exchange_rate_label =
      "Please enter the source currency!" ∧
    (get_exchange_rate cfgW apiFail stEmptySrc).dialog = none ∧
    (get_exchange_rate cfgW apiFail stEmptySrc).faulted = false :=
  get_rate_empty_source_aborts cfgW apiFail stEmptySrc rfl

/-- C6 counterexample: with correct credentials and a quota response whose
body lacks `requests_remaining`, the quota endpoint is called but the
handler faults before the entry clears run, so both credential fields keep
their submitted values — the clearing is not unconditional after the call. -/
theorem quota_clear_not_unconditional :
    truthy (check_admin cfgW stW) = true ∧
    (get_api_quota cfgW apiNoKeys stW).requests = [quotaUrl cfgW] ∧
    (get_api_quota cfgW apiNoKeys stW).state.admin_entry = "alice" ∧
    (get_api_quota cfgW apiNoKeys stW).state.admin_password_entry = "s3cret" ∧
    (get_api_quota cfgW apiNoKeys stW).faulted = true := by
  decide

/-- C6 (amended): after a successful credential check the quota endpoint
is called, and the credential input fields are cleared exactly when the
fetch, parse and display succeed; if any of those faults, the fields keep
their prior values. -/
theorem quota_clears_fields_iff_no_fault (cfg : Config) (api : Api) (st : AppState)
    (h : truthy (check_admin cfg st) = true) :
    (get_api_quota cfg api st).requests = [quotaUrl cfg] ∧
    ((get_api_quota cfg api st).faulted = false →
      (get_api_quota cfg api st).state.admin_entry = "" ∧
      (get_api_quota cfg api st).state.admin_password_entry = "") ∧
    ((get_api_quota cfg api st).faulted = true →
      (get_api_quota cfg api st).state.admin_entry = st.admin_entry ∧
      (get_api_quota cfg api st).state.admin_password_entry = st.admin_password_entry) := by
  unfold get_api_quota
  simp only [h]
  cases hq : api (quotaUrl cfg) with
  | error e => simp [hq]
  | ok b => cases hb : b.requests_remaining <;> simp [hq, hb]

/-- Witness for the amended C6: a successful fetch clears both fields. -/
theorem quota_clears_fields_iff_no_fault_spot :
    (get_api_quota cfgW apiW stW).requests = [quotaUrl cfgW] ∧
    (get_api_quota cfgW apiW stW).state.admin_entry = "" ∧
    (get_api_quota cfgW apiW stW).state.admin_password_entry = "" := by
  have h := quota_clears_fields_iff_no_fault cfgW apiW stW (by decide)
  exact ⟨h.1, (h.2.1 (by decide)).1, (h.2.1 (by decide)).2⟩

/-- C7: in each HTTP-backed path (convert, rate lookup with both fields,
quota after a passing credential check) the handler faults exactly when
the transport fails or the expected JSON key (or target rate) is absent,
and a faulting handler leaves the whole widget state untouched: no error
message appears and the display/clear steps do not run. -/
theorem handlers_propagate_faults (cfg : Config) (api : Api) (st : AppState) :
    (((convert_currency cfg api st).faulted = true ↔
        respResult (api (pairUrl cfg (pyUpper st.source_currency_entry)
          (pyUpper st.target_currency_entry) st.amount_entry)) = none) ∧
      ((convert_currency cfg api st).faulted = true →
        (convert_currency cfg api st).state = st)) ∧
    (¬(st.from_currency_entry = "") → ¬(st.to_currency_entry = "") →
      ((get_exchange_rate cfg api st).faulted = true ↔
        respRate (api (latestUrl cfg (pyUpper st.from_currency_entry)))
          (pyUpper st.to_currency_entry) = none) ∧
      ((get_exchange_rate cfg api st).faulted = true →
        (get_exchange_rate cfg api st).state = st)) ∧
    (truthy (check_admin cfg st) = true →
      ((get_api_quota cfg api st).faulted = true ↔
        respRemaining (api (quotaUrl cfg)) = none) ∧
      ((get_api_quota cfg api st).faulted = true →
        (get_api_quota cfg api st).state = st)) :=
  ⟨convert_fault_char cfg api st,
   fun hf ht => rate_fault_char cfg api st hf ht,
   fun h => quota_fault_char cfg api st h⟩

/-- Witness for C7: against a failing transport all three handlers fault
and leave the state exactly as it was. -/
theorem handlers_propagate_faults_spot :
    (convert_currency cfgW apiFail stW).faulted = true ∧
    (convert_currency cfgW apiFail stW).state = stW ∧
    (get_exchange_rate cfgW apiFail stW).faulted = true ∧
    (get_exchange_rate cfgW apiFail stW).state = stW ∧
    (get_api_quota cfgW apiFail stW).faulted = true ∧
    (get_api_quota cfgW apiFail stW).state = stW := by
  have h := handlers_propagate_faults cfgW apiFail stW
  have hr := h.2.1 (by decide) (by decide)
  have hq := h.2.2 (by decide)
  have hc1 : (convert_currency cfgW apiFail stW).faulted = true := h.1.1.mpr (by decide)
  have hr1 : (get_exchange_rate cfgW apiFail stW).faulted = true := hr.1.mpr (by decide)
  have hq1 : (get_api_quota cfgW apiFail stW).faulted = true := hq.1.mpr (by decide)
  exact ⟨hc1, h.1.2 hc1, hr1, hr.2 hr1, hq1, hq.2 hq1⟩

/-- C8: the code embedded in a request URL is exactly the uppercased form
of the field content, for every input string and with no validation: the
convert handler uppercases source and target into the pair URL, and the
rate-lookup handler uppercases the source into the latest URL. -/
theorem urls_use_uppercased_codes (cfg : Config) (api : Api) (st : AppState) :
    (convert_currency cfg api st).requests =
      [pairUrl cfg (pyUpper st.source_currency_entry) (pyUpper st.target_currency_entry)
        st.amount_entry] ∧
    (¬(st.from_currency_entry = "") →
      (get_exchange_rate cfg api st).requests =
        [latestUrl cfg (pyUpper st.from_currency_entry)]) :=
  ⟨convert_requests_eq cfg api st, fun hf => get_rate_requests_eq cfg api st hf⟩

/-- Witness for C8: lowercase inputs yield uppercase codes in the URLs. -/
theorem urls_use_uppercased_codes_spot :
    (convert_currency cfgW apiW stW).requests =
      ["https://v6.exchangerate-api.com/v6/KEY/pair/USD/EUR/100"] ∧
    (get_exchange_rate cfgW apiW stW).requests =
      ["https://v6.exchangerate-api.com/v6/KEY/latest/USD"] := by
  have h := urls_use_uppercased_codes cfgW apiW stW
  exact ⟨h.1.trans (by decide), (h.2 (by decide)).trans (by decide)⟩

/-- C9: when the admin-username or admin-password secret is absent from
the environment (the configured value is `None`), the credential check
yields `None` for every submitted pair, the quota endpoint is never
reached, and the absence surfaces only as the invalid-credentials
message. -/
theorem missing_secret_blocks_quota (cfg : Config) (api : Api) (st : AppState)
    (h : cfg.ADMIN = none ∨ cfg.PASSWORD = none) :
    check_admin cfg st = none ∧
    (get_api_quota cfg api st).requests = [] ∧
    (get_api_quota cfg api st).state.quota_label = "Invalid admin credentials!" := by
  have hn : check_admin cfg st = none := by
    unfold check_admin
    rcases h with h | h <;> simp [h]
  refine ⟨hn, ?_, ?_⟩ <;>
    · unfold get_api_quota
      simp [hn, truthy]

/-- Witness for C9 at an absent admin-username secret. -/
theorem missing_secret_blocks_quota_spot :
    check_admin cfgNoAdmin stW = none ∧
    (get_api_quota cfgNoAdmin apiW stW).requests = [] ∧
    (get_api_quota cfgNoAdmin apiW stW).state.quota_label = "Invalid admin credentials!" :=
  missing_secret_blocks_quota cfgNoAdmin apiW stW (Or.inl rfl)

/-- C10: the convert command has no empty-field guard: for every form
state, the empty ones included, it issues exactly the pair request built
from the (possibly empty) field contents. -/
theorem convert_has_no_empty_guard (cfg : Config) (api : Api) (st : AppState) :
    (convert_currency cfg api st).requests =
      [pairUrl cfg (pyUpper st.source_currency_entry) (pyUpper st.target_currency_entry)
        st.amount_entry] ∧
    ((st.source_currency_entry = "" ∨ st.target_currency_entry = "" ∨ st.amount_entry = "") →
      (convert_currency cfg api st).requests ≠ []) := by
  refine ⟨convert_requests_eq cfg api st, fun _ => ?_⟩
  rw [convert_requests_eq cfg api st]
  simp

/-- Witness for C10: a fully empty form still issues the pair request,
with empty path segments. -/
theorem convert_has_no_empty_guard_spot :
    (convert_currency cfgW apiFail stEmptyAll).requests =
      ["https://v6.exchangerate-api.com/v6/KEY/pair///"] ∧
    (convert_currency cfgW apiFail stEmptyAll).requests ≠ [] := by
  have h := convert_has_no_empty_guard cfgW apiFail stEmptyAll
  exact ⟨h.1.trans (by decide), h.2 (Or.inl rfl)⟩

end ExchangeRate
